import Mathlib

/-!
Verification of the staking parameter registry (`x/staking/types/params.go`).

The Go source defines a seven-field `Params` record, an explicit constructor
`NewParams`, a defaults factory `DefaultParams`, the parameter-store binding
enumeration `ParamSetPairs`, serialization-based equality `Equal`, a
human-readable `String` rendering, and a first-violation `Validate` check.
This file embeds those operations shallowly and proves the specified
properties about them.

Modelling decisions:
- `time.Duration` is an `Int` (signed 64-bit nanosecond count in Go; only
  its value identity matters here, no arithmetic is performed on it).
- the `uint16` fields are `Nat`s; the operations only test them against
  zero, which is insensitive to the 16-bit bound.
- `sdk.Dec` (a fixed-precision decimal, internally an arbitrary-precision
  scaled integer) is an `Int`; the code only compares it with zero.
- Go pointers `&p.Field` in `ParamSetPairs` become explicit field
  references (`FieldRef`) with get/set functions over `Params`.
-/

/-- `sdk.Dec`: the external high-precision decimal type.  Only ordering
against zero is used by this module, so the scaled integer value suffices. -/
abbrev Dec := Int

/-- `sdk.ZeroDec()`. -/
def ZeroDec : Dec := 0

/-- `sdk.Dec.LTE`: less-than-or-equal comparison on decimals. -/
def Dec.LTE (a b : Dec) : Bool := decide (a ≤ b)

/-- `Params` from params.go: the high level settings for staking, with the
fields in source declaration order. -/
structure Params where
  UnbondingTime : Int
  MaxValidators : Nat
  Epoch : Nat
  MaxValsToVote : Nat
  BondDenom : String
  MinSelfDelegationLimit : Dec
  MinDelegation : Dec
  deriving DecidableEq, Repr

/-- Key constant `KeyUnbondingTime = []byte("UnbondingTime")` (keys are ASCII
byte strings in the source; modelled as `String`). -/
def KeyUnbondingTime : String := "UnbondingTime"

/-- Key constant `KeyMaxValidators`. -/
def KeyMaxValidators : String := "MaxValidators"

/-- Key constant `KeyBondDenom`. -/
def KeyBondDenom : String := "BondDenom"

/-- Key constant `KeyEpoch = []byte("BlocksPerEpoch")`: how many blocks each
epoch has. -/
def KeyEpoch : String := "BlocksPerEpoch"

/-- Key constant `KeyTheEndOfLastEpoch`: a block height that is the end of the
last epoch.  Declared in the source alongside the other keys but never used by
`ParamSetPairs`. -/
def KeyTheEndOfLastEpoch : String := "TheEndOfLastEpoch"

/-- Key constant `KeyMaxValsToVote`. -/
def KeyMaxValsToVote : String := "MaxValsToVote"

/-- Key constant `KeyMinSelfDelegationLimit`. -/
def KeyMinSelfDelegationLimit : String := "MinSelfDelegationLimit"

/-- Key constant `KeyMinDelegation`. -/
def KeyMinDelegation : String := "MinDelegation"

/-- `NewParams` creates a new `Params` instance: pure aggregation of the seven
arguments into the record, in the source argument order
(unbondingTime, maxValidators, bondDenom, epoch, maxValsToVote,
minSelfDelegationLimited, minDelegation). -/
def NewParams (unbondingTime : Int) (maxValidators : Nat) (bondDenom : String)
    (epoch : Nat) (maxValsToVote : Nat) (minSelfDelegationLimited : Dec)
    (minDelegation : Dec) : Params :=
  ⟨unbondingTime, maxValidators, epoch, maxValsToVote, bondDenom,
   minSelfDelegationLimited, minDelegation⟩

/-- A reference to one field of a `Params` instance: the shallow embedding of
the Go pointers `&p.UnbondingTime`, `&p.MaxValidators`, ... that
`ParamSetPairs` hands to the external parameter store. -/
inductive FieldRef where
  | unbondingTime
  | maxValidators
  | bondDenom
  | epoch
  | maxValsToVote
  | minSelfDelegationLimit
  | minDelegation
  deriving DecidableEq, Repr

/-- A value of one of the field types of `Params`, tagged by which type it
is: the payload a caller reads or writes through a `FieldRef`. -/
inductive FieldVal where
  | dur (d : Int)
  | u16 (n : Nat)
  | str (s : String)
  | dec (d : Dec)
  deriving DecidableEq, Repr

/-- Reading through a field reference: dereferencing the Go pointer. -/
def FieldRef.get (r : FieldRef) (p : Params) : FieldVal :=
  match r with
  | .unbondingTime => .dur p.UnbondingTime
  | .maxValidators => .u16 p.MaxValidators
  | .bondDenom => .str p.BondDenom
  | .epoch => .u16 p.Epoch
  | .maxValsToVote => .u16 p.MaxValsToVote
  | .minSelfDelegationLimit => .dec p.MinSelfDelegationLimit
  | .minDelegation => .dec p.MinDelegation

/-- Writing through a field reference: assigning through the Go pointer.  A
write of a value of the wrong type is a caller contract violation (the
external store signals it), modelled as `none`. -/
def FieldRef.set (r : FieldRef) (v : FieldVal) (p : Params) : Option Params :=
  match r, v with
  | .unbondingTime, .dur d =>
      some ⟨d, p.MaxValidators, p.Epoch, p.MaxValsToVote, p.BondDenom,
            p.MinSelfDelegationLimit, p.MinDelegation⟩
  | .maxValidators, .u16 n =>
      some ⟨p.UnbondingTime, n, p.Epoch, p.MaxValsToVote, p.BondDenom,
            p.MinSelfDelegationLimit, p.MinDelegation⟩
  | .epoch, .u16 n =>
      some ⟨p.UnbondingTime, p.MaxValidators, n, p.MaxValsToVote, p.BondDenom,
            p.MinSelfDelegationLimit, p.MinDelegation⟩
  | .maxValsToVote, .u16 n =>
      some ⟨p.UnbondingTime, p.MaxValidators, p.Epoch, n, p.BondDenom,
            p.MinSelfDelegationLimit, p.MinDelegation⟩
  | .bondDenom, .str s =>
      some ⟨p.UnbondingTime, p.MaxValidators, p.Epoch, p.MaxValsToVote, s,
            p.MinSelfDelegationLimit, p.MinDelegation⟩
  | .minSelfDelegationLimit, .dec d =>
      some ⟨p.UnbondingTime, p.MaxValidators, p.Epoch, p.MaxValsToVote,
            p.BondDenom, d, p.MinDelegation⟩
  | .minDelegation, .dec d =>
      some ⟨p.UnbondingTime, p.MaxValidators, p.Epoch, p.MaxValsToVote,
            p.BondDenom, p.MinSelfDelegationLimit, d⟩
  | _, _ => none

/-- `Params.ParamSetPairs`: the ordered (key, field-reference) list handed to
the external parameter store, in the source order. -/
def Params.ParamSetPairs (p : Params) : List (String × FieldRef) :=
  [(KeyUnbondingTime, .unbondingTime),
   (KeyMaxValidators, .maxValidators),
   (KeyBondDenom, .bondDenom),
   (KeyEpoch, .epoch),
   (KeyMaxValsToVote, .maxValsToVote),
   (KeyMinSelfDelegationLimit, .minSelfDelegationLimit),
   (KeyMinDelegation, .minDelegation)]

/-- Base-256 little-endian digits of a natural number, fuel-indexed so that it
reduces definitionally (fuel `n + 1` always suffices since the argument at
least halves each step). -/
def natBytesGo : Nat → Nat → List Nat
  | 0, _ => []
  | fuel + 1, n => if n < 256 then [n] else n % 256 :: natBytesGo fuel (n / 256)

/-- Base-256 little-endian byte encoding of a natural number. -/
def natBytes (n : Nat) : List Nat := natBytesGo (n + 1) n

/-- Sign-tagged byte encoding of an integer. -/
def intBytes : Int → List Nat
  | Int.ofNat n => 0 :: natBytes n
  | Int.negSucc n => 1 :: natBytes n

/-- Code-point encoding of a string. -/
def strBytes (s : String) : List Nat := s.data.map Char.toNat

/-- Length-prefix a chunk of bytes. -/
def lenPrefix (bs : List Nat) : List Nat := bs.length :: bs

/-- Modelled from the spec: the body encoding used by the canonical codec
(`ModuleCdc`, declared in this repository outside the provided sources and
described in §6 as a deterministic length-prefixed binary encoder).  Every §3
field is encoded, each as a length-prefixed chunk, in struct field order. -/
def Params.marshalBinary (p : Params) : List Nat :=
  lenPrefix (intBytes p.UnbondingTime) ++ lenPrefix (natBytes p.MaxValidators) ++
  lenPrefix (natBytes p.Epoch) ++ lenPrefix (natBytes p.MaxValsToVote) ++
  lenPrefix (strBytes p.BondDenom) ++ lenPrefix (intBytes p.MinSelfDelegationLimit) ++
  lenPrefix (intBytes p.MinDelegation)

/-- Modelled from the spec: `ModuleCdc.MustMarshalBinaryLengthPrefixed` —
the body encoding preceded by its total length. -/
def Params.marshalBinaryLengthPrefixed (p : Params) : List Nat :=
  lenPrefix (Params.marshalBinary p)

/-- `Params.Equal`: marshals both parameter sets with the canonical codec and
compares the byte sequences (`bytes.Equal`). -/
def Params.Equal (p p2 : Params) : Bool :=
  Params.marshalBinaryLengthPrefixed p == Params.marshalBinaryLengthPrefixed p2

/-- Modelled from the spec: `config.DefaultUnbondingTime`, an opaque external
default constant (three weeks, as nanoseconds). -/
def DefaultUnbondingTime : Int := 1814400000000000

/-- Modelled from the spec: `config.DefaultMaxValidators`, an opaque external
default constant. -/
def DefaultMaxValidators : Nat := 21

/-- Modelled from the spec: `config.DefaultBlocksPerEpoch`, an opaque external
default constant. -/
def DefaultEpoch : Nat := 252

/-- Modelled from the spec: `config.DefaultMaxValsToVote`, an opaque external
default constant. -/
def DefaultMaxValsToVote : Nat := 21

/-- Modelled from the spec: `sdk.DefaultBondDenom`, an opaque external default
denomination constant (a fixed non-empty string). -/
def DefaultBondDenom : String := "okt"

/-- Modelled from the spec: `config.DefaultMinSelfDelegationLimit`, an opaque
external default decimal constant. -/
def DefaultMinSelfDelegationLimit : Dec := 10000

/-- Modelled from the spec: `config.DefaultMinDelegation`, an opaque external
default decimal constant. -/
def DefaultMinDelegation : Dec := 1

/-- `DefaultParams` returns a default set of parameters, populated entirely
from the default constants via `NewParams`. -/
def DefaultParams : Params :=
  NewParams DefaultUnbondingTime DefaultMaxValidators DefaultBondDenom
    DefaultEpoch DefaultMaxValsToVote DefaultMinSelfDelegationLimit
    DefaultMinDelegation

/-- Rendering of one field value for display (`%s` / `%d` interpolation). -/
def FieldVal.render : FieldVal → String
  | .dur d => toString d
  | .u16 n => toString n
  | .str s => s
  | .dec d => toString d

/-- `Params.String`: the labelled lines of the fixed `fmt.Sprintf` template,
each label paired with the field value interpolated at that position, in the
template order of the source. -/
def Params.stringEntries (p : Params) : List (String × FieldVal) :=
  [("Unbonding Time:", .dur p.UnbondingTime),
   ("Max Validators:", .u16 p.MaxValidators),
   ("Epoch:", .u16 p.Epoch),
   ("Bonded Coin Denom:", .str p.BondDenom),
   ("MaxValsToVote:", .u16 p.MaxValsToVote),
   ("MinSelfDelegationLimited", .dec p.MinSelfDelegationLimit),
   ("MinDelegation", .dec p.MinDelegation)]

/-- The assembled human-readable multi-line rendering (the `String()` method
of the source; named `toStr` here because `String` would shadow the string
type inside the namespace). -/
def Params.toStr (p : Params) : String :=
  "Params:" ++
    String.join ((Params.stringEntries p).map
      (fun e => "\n  " ++ e.1 ++ " " ++ FieldVal.render e.2))

/-- Error message for an empty bond denomination. -/
def errBondDenomEmpty : String :=
  "staking parameter BondDenom can\x27t be an empty string"

/-- Error message for a zero MaxValidators. -/
def errMaxValidators : String :=
  "staking parameter MaxValidators must be a positive integer"

/-- Error message for a zero Epoch. -/
def errEpoch : String :=
  "staking parameter Epoch must be a positive integer"

/-- Error message for a zero MaxValsToVote. -/
def errMaxValsToVote : String :=
  "staking parameter MaxValsToVote must be a positive integer"

/-- Error message for a non-positive MinSelfDelegationLimit. -/
def errMinSelfDelegationLimit : String :=
  "staking parameter MinSelfDelegationLimit cannot be a negative integer"

/-- `Params.Validate`: quick validity check, returning the first violated
invariant as a descriptive error (`some msg`) or `none` for ok, with the
checks in source order. -/
def Params.Validate (p : Params) : Option String :=
  if p.BondDenom = "" then some errBondDenomEmpty
  else if p.MaxValidators = 0 then some errMaxValidators
  else if p.Epoch = 0 then some errEpoch
  else if p.MaxValsToVote = 0 then some errMaxValsToVote
  else if Dec.LTE p.MinSelfDelegationLimit ZeroDec then
    some errMinSelfDelegationLimit
  else none

/-- The render order the data model of the specification prescribes
(unbondingDuration, maxValidators, epochLength, maxValidatorsToVote,
bondDenom, minSelfDelegationLimit, minDelegation), stated from the
specification text for comparison with the implemented order. -/
def specRenderValues (p : Params) : List FieldVal :=
  [.dur p.UnbondingTime, .u16 p.MaxValidators, .u16 p.Epoch,
   .u16 p.MaxValsToVote, .str p.BondDenom,
   .dec p.MinSelfDelegationLimit, .dec p.MinDelegation]

/-- C6: `NewParams` is a pure aggregation with no validation: each field of
the result equals the corresponding argument, for all argument values. -/
theorem newParams_fields (ut : Int) (mv : Nat) (bd : String) (ep : Nat)
    (mvv : Nat) (msd : Dec) (md : Dec) :
    (NewParams ut mv bd ep mvv msd md).UnbondingTime = ut
    ∧ (NewParams ut mv bd ep mvv msd md).MaxValidators = mv
    ∧ (NewParams ut mv bd ep mvv msd md).BondDenom = bd
    ∧ (NewParams ut mv bd ep mvv msd md).Epoch = ep
    ∧ (NewParams ut mv bd ep mvv msd md).MaxValsToVote = mvv
    ∧ (NewParams ut mv bd ep mvv msd md).MinSelfDelegationLimit = msd
    ∧ (NewParams ut mv bd ep mvv msd md).MinDelegation = md :=
  ⟨rfl, rfl, rfl, rfl, rfl, rfl, rfl⟩

/-- C2: `Validate` returns ok (`none`) exactly when all five checked
invariants hold: non-empty bond denomination, positive MaxValidators, Epoch
and MaxValsToVote, and strictly positive MinSelfDelegationLimit.  (It is a
pure function of the record in this embedding, mirroring the by-value
receiver in the source.) -/
theorem validate_ok_iff (p : Params) :
    Params.Validate p = none ↔
      (p.BondDenom ≠ "" ∧ 0 < p.MaxValidators ∧ 0 < p.Epoch ∧
       0 < p.MaxValsToVote ∧ ZeroDec < p.MinSelfDelegationLimit) := by
  unfold Params.Validate
  split_ifs with h1 h2 h3 h4 h5 <;>
    simp_all [Dec.LTE, ZeroDec] <;> omega

/-- C3: `Validate` reports the first violated invariant in the fixed source
order: empty BondDenom, then MaxValidators = 0, then Epoch = 0, then
MaxValsToVote = 0, then MinSelfDelegationLimit ≤ 0; in particular an empty
BondDenom wins over every later violation. -/
theorem validate_first_violation (p : Params) :
    (p.BondDenom = "" → Params.Validate p = some errBondDenomEmpty)
    ∧ (p.BondDenom ≠ "" → p.MaxValidators = 0 →
        Params.Validate p = some errMaxValidators)
    ∧ (p.BondDenom ≠ "" → p.MaxValidators ≠ 0 → p.Epoch = 0 →
        Params.Validate p = some errEpoch)
    ∧ (p.BondDenom ≠ "" → p.MaxValidators ≠ 0 → p.Epoch ≠ 0 →
        p.MaxValsToVote = 0 → Params.Validate p = some errMaxValsToVote)
    ∧ (p.BondDenom ≠ "" → p.MaxValidators ≠ 0 → p.Epoch ≠ 0 →
        p.MaxValsToVote ≠ 0 → p.MinSelfDelegationLimit ≤ ZeroDec →
        Params.Validate p = some errMinSelfDelegationLimit) := by
  refine ⟨?_, ?_, ?_, ?_, ?_⟩ <;> intros <;>
    simp_all [Params.Validate, Dec.LTE, ZeroDec]

/-- Witness for C3: each branch of the ordering theorem exercised at a
concrete parameter set, including one that violates both the BondDenom and
the MaxValidators invariant and reports the BondDenom error. -/
theorem validate_first_violation_witness :
    Params.Validate (NewParams 0 0 "" 0 0 0 0) = some errBondDenomEmpty
    ∧ Params.Validate (NewParams 0 0 "x" 0 0 0 0) = some errMaxValidators
    ∧ Params.Validate (NewParams 0 1 "x" 0 0 0 0) = some errEpoch
    ∧ Params.Validate (NewParams 0 1 "x" 1 0 0 0) = some errMaxValsToVote
    ∧ Params.Validate (NewParams 0 1 "x" 1 1 0 0) =
        some errMinSelfDelegationLimit :=
  ⟨(validate_first_violation _).1 rfl,
   (validate_first_violation _).2.1 (by decide) rfl,
   (validate_first_violation _).2.2.1 (by decide) (by decide) rfl,
   (validate_first_violation _).2.2.2.1 (by decide) (by decide) (by decide) rfl,
   (validate_first_violation _).2.2.2.2 (by decide) (by decide) (by decide)
     (by decide) (by decide)⟩

/-- C5: `Validate` never bounds-checks MinDelegation: whenever the five
checked invariants hold, the result is ok, whatever MinDelegation is (the
record `p` is arbitrary, so in particular its MinDelegation may be zero or
negative). -/
theorem validate_ignores_minDelegation (p : Params)
    (h1 : p.BondDenom ≠ "") (h2 : 0 < p.MaxValidators) (h3 : 0 < p.Epoch)
    (h4 : 0 < p.MaxValsToVote) (h5 : ZeroDec < p.MinSelfDelegationLimit) :
    Params.Validate p = none := by
  have h2x : p.MaxValidators ≠ 0 := Nat.pos_iff_ne_zero.mp h2
  have h3x : p.Epoch ≠ 0 := Nat.pos_iff_ne_zero.mp h3
  have h4x : p.MaxValsToVote ≠ 0 := Nat.pos_iff_ne_zero.mp h4
  have h5x : ¬ (p.MinSelfDelegationLimit ≤ ZeroDec) := not_le.mpr h5
  simp [Params.Validate, Dec.LTE, h1, h2x, h3x, h4x, h5x]

/-- Witness for C5: a parameter set with a negative MinDelegation that
validates ok. -/
theorem validate_ignores_minDelegation_witness :
    Params.Validate (NewParams 1 1 "okt" 1 1 1 (-7)) = none :=
  validate_ignores_minDelegation _ (by decide) (by decide) (by decide)
    (by decide) (by decide)

/-- C9: the result of `Validate` depends only on the five checked fields:
two parameter sets that agree on BondDenom, MaxValidators, Epoch,
MaxValsToVote and MinSelfDelegationLimit validate identically, whatever
their UnbondingTime (negative included) and MinDelegation are. -/
theorem validate_depends_only_on_checked (p q : Params)
    (h1 : p.BondDenom = q.BondDenom) (h2 : p.MaxValidators = q.MaxValidators)
    (h3 : p.Epoch = q.Epoch) (h4 : p.MaxValsToVote = q.MaxValsToVote)
    (h5 : p.MinSelfDelegationLimit = q.MinSelfDelegationLimit) :
    Params.Validate p = Params.Validate q := by
  simp [Params.Validate, h1, h2, h3, h4, h5]

/-- Witness for C9: a negative UnbondingTime and a negative MinDelegation do
not change the validation verdict. -/
theorem validate_depends_only_on_checked_witness :
    Params.Validate (NewParams (-5) 1 "okt" 2 3 4 (-3)) =
      Params.Validate (NewParams 0 1 "okt" 2 3 4 0) :=
  validate_depends_only_on_checked _ _ rfl rfl rfl rfl rfl

/-- C4: `ParamSetPairs` returns exactly seven entries, with the keys in the
fixed stable order UnbondingTime, MaxValidators, BondDenom, BlocksPerEpoch,
MaxValsToVote, MinSelfDelegationLimit, MinDelegation, each key exactly once
(the enumeration is a pure function of the record, hence identical on every
call). -/
theorem paramSetPairs_keys (p : Params) :
    (Params.ParamSetPairs p).map Prod.fst =
      ["UnbondingTime", "MaxValidators", "BondDenom", "BlocksPerEpoch",
       "MaxValsToVote", "MinSelfDelegationLimit", "MinDelegation"]
    ∧ (Params.ParamSetPairs p).length = 7
    ∧ ((Params.ParamSetPairs p).map Prod.fst).Nodup := by
  refine ⟨rfl, rfl, ?_⟩
  have h : (Params.ParamSetPairs p).map Prod.fst =
      ["UnbondingTime", "MaxValidators", "BondDenom", "BlocksPerEpoch",
       "MaxValsToVote", "MinSelfDelegationLimit", "MinDelegation"] := rfl
  rw [h]
  decide

/-- C10: although the source declares the extra key constant
`KeyTheEndOfLastEpoch = "TheEndOfLastEpoch"`, no entry of `ParamSetPairs`
carries that key: looking it up fails and it occurs zero times among the
keys. -/
theorem keyTheEndOfLastEpoch_not_bound (p : Params) :
    (Params.ParamSetPairs p).lookup KeyTheEndOfLastEpoch = none
    ∧ ((Params.ParamSetPairs p).map Prod.fst).count KeyTheEndOfLastEpoch
        = 0 := by
  refine ⟨?_, ?_⟩ <;> rfl

/-- C7: writing a value through the field reference that `ParamSetPairs`
returns for key MaxValidators and re-reading the record observes the new
value, and the six other fields are unchanged. -/
theorem paramSetPairs_maxValidators_write (p : Params) (n : Nat) :
    (((Params.ParamSetPairs p).lookup KeyMaxValidators).bind
        fun r => FieldRef.set r (.u16 n) p) =
      some ⟨p.UnbondingTime, n, p.Epoch, p.MaxValsToVote, p.BondDenom,
            p.MinSelfDelegationLimit, p.MinDelegation⟩ := by
  rfl

/-- C1: `Equal` holds exactly when the canonical length-prefixed
serializations coincide; it is reflexive, two calls of `DefaultParams` give
equal parameter sets, and `DefaultParams` equals the `NewParams` built from
the same seven default values. -/
theorem equal_iff_serialization :
    (∀ a b : Params, Params.Equal a b = true ↔
        Params.marshalBinaryLengthPrefixed a =
          Params.marshalBinaryLengthPrefixed b)
    ∧ (∀ p : Params, Params.Equal p p = true)
    ∧ Params.Equal DefaultParams DefaultParams = true
    ∧ Params.Equal DefaultParams
        (NewParams DefaultUnbondingTime DefaultMaxValidators DefaultBondDenom
          DefaultEpoch DefaultMaxValsToVote DefaultMinSelfDelegationLimit
          DefaultMinDelegation) = true := by
  refine ⟨fun a b => ?_, fun p => ?_, ?_, ?_⟩
  · simp [Params.Equal]
  · simp [Params.Equal]
  · simp [Params.Equal]
  · simp [Params.Equal, DefaultParams]

/-- C8 counterexample: the rendered field order of the source is not the
data-model order the specification claims — at the concrete parameter set
below, the interpolated values of the `String()` template differ from the
claimed order (BondDenom is rendered fourth, before MaxValsToVote). -/
theorem toStr_order_counterexample :
    ¬ ((Params.stringEntries (NewParams 1 2 "d" 3 4 5 6)).map Prod.snd =
        specRenderValues (NewParams 1 2 "d" 3 4 5 6)) := by
  decide

/-- C8 amended: `toStr` renders all seven fields in a fixed layout, but in
the order UnbondingTime, MaxValidators, Epoch, BondDenom, MaxValsToVote,
MinSelfDelegationLimit, MinDelegation — BondDenom precedes MaxValsToVote,
unlike the data-model order of the specification. -/
theorem toStr_field_order (p : Params) :
    (Params.stringEntries p).map Prod.snd =
      [FieldVal.dur p.UnbondingTime, FieldVal.u16 p.MaxValidators,
       FieldVal.u16 p.Epoch, FieldVal.str p.BondDenom,
       FieldVal.u16 p.MaxValsToVote, FieldVal.dec p.MinSelfDelegationLimit,
       FieldVal.dec p.MinDelegation] := by
  rfl
